import Mathlib

/-!
A shallow embedding of `src/app.py` (Youtube-Whisper).

The program is a thin orchestration pipeline: a regex URL validator, an
external audio fetcher (`download_mp3_yt_dlp`, from the module
`download_video`), a process-wide whisper model cache, transcription,
persistence of the transcription to `transcription.txt`, and cleanup of the
downloaded audio file.

Modelling choices:
* Python exceptions raised by external collaborators are modelled by the
  collaborator returning `none`; the `try/except` blocks of the source are
  the `match`es on those options.
* The mutable process state (the global `models` dict, the filesystem, the
  printed diagnostics and the gradio progress calls) is threaded explicitly
  through a `St` record.  `St` also carries append-only observation logs of
  collaborator invocations (`fetchCalls`, `loadCalls`, `modelTranscribeCalls`,
  `transcribeAudioCalls`, `writes`); no code path reads them, they only
  record the events and call counts that the specification talks about.
* The filesystem is an association list from paths to contents; `open(p,"w")`
  is an overwriting insert, `os.path.exists` / `os.remove` are lookup/delete.
* A loaded whisper model handle is opaque; it is represented by a `Nat`
  supplied by the loader behaviour of the environment.
-/

/-! ## The URL validator

`is_valid_youtube_url` in `app.py` is
`re.match(r"^(https?://)?(www\.)?(youtube\.com|youtu\.?be)/.+$", url)`.

We embed Python `re` semantics for this concrete pattern: `re.match` anchors
at the start; `$` matches at the end of the string or just before a final
newline; `.` matches any character except `'\n'`; an optional group `(x)?`
tries `x` first and then the empty alternative; an alternation tries its
branches left to right.  Since every branch of the pattern is a literal,
matching a branch is stripping that literal from the front of the input. -/

/-- Strip the literal `p` from the front of `cs`, returning the remainder. -/
def chop : List Char → List Char → Option (List Char)
  | [], cs => some cs
  | _ :: _, [] => none
  | p :: ps, c :: cs => if p = c then chop ps cs else none

/-- Try each literal alternative in order; on a successful strip, continue
with the matcher `k` on the remainder.  This is regex alternation over
literal branches (an optional group has `[]` as its last branch). -/
def anyChop (ps : List (List Char)) (k : List Char → Bool) (cs : List Char) : Bool :=
  ps.any (fun p =>
    match chop p cs with
    | some r => k r
    | none => false)

/-- Python `$`: succeeds at the end of the string, or just before a final
newline. -/
def dollarEnd : List Char → Bool
  | [] => true
  | [c] => c = '\n'
  | _ :: _ :: _ => false

/-- Python `.+$`: one or more non-newline characters, then `$`. -/
def dotPlusDollar : List Char → Bool
  | [] => false
  | c :: rest => decide (c ≠ '\n') && (dollarEnd rest || dotPlusDollar rest)

/-- The alternatives of `(https?://)?` in greedy order. -/
def schemeAlts : List (List Char) := ["https://".data, "http://".data, []]

/-- The alternatives of `(www\.)?` in greedy order. -/
def wwwAlts : List (List Char) := ["www.".data, []]

/-- The alternatives of `(youtube\.com|youtu\.?be)`: the second branch with
its greedy optional dot expands to `youtu.be` then `youtube` (the optional
dot makes the bare host `youtube` match as well). -/
def hostAlts : List (List Char) := ["youtube.com".data, "youtu.be".data, "youtube".data]

/-- `is_valid_youtube_url` from `app.py`:
`re.match(r"^(https?://)?(www\.)?(youtube\.com|youtu\.?be)/.+$", url) is not None`. -/
def is_valid_youtube_url (url : String) : Bool :=
  anyChop schemeAlts
    (anyChop wwwAlts
      (anyChop hostAlts
        (anyChop [['/']] dotPlusDollar)))
    url.data

/-! ### The URL shape asserted by claim C2 (spec's words, for comparison)

Claim C2 asserts the accepted hosts are exactly `youtube.com` and `youtu.be`
and that any non-empty remainder after `/` is accepted.  The following two
definitions state that shape — they follow the claim's words, not the code —
so that the claim can be compared against `is_valid_youtube_url`. -/

/-- The host set claim C2 asserts: exactly `youtube.com` or `youtu.be`. -/
def claimedHostAlts : List (List Char) := ["youtube.com".data, "youtu.be".data]

/-- Executable mirror of claim C2's URL shape: optional scheme, optional
`www.`, host exactly `youtube.com` or `youtu.be`, then `/` and a non-empty
remainder. -/
def claimedMatch (url : String) : Bool :=
  anyChop schemeAlts
    (anyChop wwwAlts
      (anyChop claimedHostAlts
        (anyChop [['/']] (fun r => !r.isEmpty))))
    url.data

/-- Claim C2's URL shape as a predicate (the claim's words). -/
def ClaimedShapeC2 (url : String) : Prop :=
  ∃ scheme www host rest : List Char,
    (scheme = [] ∨ scheme = "http://".data ∨ scheme = "https://".data) ∧
    (www = [] ∨ www = "www.".data) ∧
    (host = "youtube.com".data ∨ host = "youtu.be".data) ∧
    rest ≠ [] ∧
    url.data = scheme ++ www ++ host ++ '/' :: rest

/-! ## Process state and external collaborators -/

/-- A tiny filesystem: an association list from paths to file contents. -/
abbrev FsT := List (String × String)

/-- `os.remove` (also used to drop an old binding before an overwrite). -/
def fsRemove (fs : FsT) (p : String) : FsT :=
  fs.filter (fun e => e.1 != p)

/-- `open(p, "w").write(c)`: overwrite semantics. -/
def fsWrite (fs : FsT) (p c : String) : FsT :=
  (p, c) :: fsRemove fs p

/-- `os.path.exists`. -/
def fsExists (fs : FsT) (p : String) : Bool :=
  fs.any (fun e => e.1 == p)

/-- Read a file's content, if present. -/
def fsRead? (fs : FsT) (p : String) : Option String :=
  (fs.find? (fun e => e.1 == p)).map (fun e => e.2)

/-- Association-list lookup, for the global `models` dict of `app.py`
(`model_size not in models` / `models[model_size]`). -/
def alookup : List (String × Nat) → String → Option Nat
  | [], _ => none
  | (k, v) :: rest, k' => if k = k' then some v else alookup rest k'

/-- The mutable process state threaded through the pipeline, plus
append-only observation logs of collaborator invocations. -/
structure St where
  /-- the global `models` dict: model size ↦ loaded model handle -/
  models : List (String × Nat)
  /-- the filesystem -/
  fs : FsT
  /-- log: arguments of each `download_mp3_yt_dlp` invocation -/
  fetchCalls : List String
  /-- log: model size of each `whisper.load_model` invocation -/
  loadCalls : List String
  /-- log: arguments of each `transcribe_audio` invocation -/
  transcribeAudioCalls : List (String × String × Option String)
  /-- log: (model, audio_path, options) of each `model.transcribe` invocation -/
  modelTranscribeCalls : List (Nat × String × Option String)
  /-- log: every file write performed during the run -/
  writes : List (String × String)
  /-- the diagnostics printed by the `except` blocks -/
  printLog : List String
  /-- the gradio progress milestones reported -/
  progressLog : List (Nat × String)
deriving DecidableEq

/-- A fresh process (empty cache, empty filesystem, no calls yet). -/
def St.init : St := ⟨[], [], [], [], [], [], [], [], []⟩

/-- Write a file and record the write event. -/
def stWriteFile (st : St) (p c : String) : St :=
  { st with fs := fsWrite st.fs p c, writes := st.writes ++ [(p, c)] }

/-- The external collaborators, as deterministic behaviours.  `none` models
the call raising an exception. -/
structure Env where
  /-- `download_mp3_yt_dlp(url)`: raises, or returns the triple
  `(audio_path, title, thumbnail_url)`; `audio_path` may be `None`. -/
  fetch : String → Option (Option String × String × Option String)
  /-- the bytes of the audio file yt-dlp leaves at `audio_path` -/
  audioBytes : String → String
  /-- `whisper.load_model(model_size)`: raises, or returns a model handle. -/
  loadModel : String → Option Nat
  /-- `model.transcribe(audio_path, **options)` followed by `['text']`:
  raises, or returns the transcription text.  The third argument is the
  `language` entry of `options`, absent or present. -/
  transcribeModel : Nat → String → Option String → Option String

/-- Python truthiness of an optional string (`if not audio_path`,
`if language`): `None` and `""` are falsy. -/
def truthyOptStr : Option String → Bool
  | none => false
  | some s => !s.isEmpty

/-- `options = {}; if language: options['language'] = language` — the
`language` entry of the options dict passed to `model.transcribe`. -/
def pyLangOpt : Option String → Option String
  | none => none
  | some l => if l.isEmpty then none else some l

/-! ## The pipeline functions of `app.py` -/

/-- `download_video_info(youtube_url)` from `app.py`.

```
if not is_valid_youtube_url(youtube_url):
    return None, "Invalid YouTube URL.", None
try:
    audio_path, title, thumbnail_url = download_mp3_yt_dlp(youtube_url)
    if not audio_path:
        return None, "Failed to download audio.", None
    return audio_path, title, thumbnail_url
except Exception as e:
    print(f"Error downloading video info: {e}")
    return None, "An error occurred while downloading the video.", None
```

When the fetch returns a truthy `audio_path`, the audio file it downloaded
is on disk (spec §3: the audio file referenced by `audio_path` exists
between Fetcher completion and Orchestrator cleanup); we model that side
effect of the external collaborator by inserting the file here. -/
def download_video_info (env : Env) (st : St) (youtube_url : String) :
    (Option String × String × Option String) × St :=
  if is_valid_youtube_url youtube_url = false then
    ((none, "Invalid YouTube URL.", none), st)
  else
    let st := { st with fetchCalls := st.fetchCalls ++ [youtube_url] }
    match env.fetch youtube_url with
    | none =>
        ((none, "An error occurred while downloading the video.", none),
         { st with printLog := st.printLog ++ ["Error downloading video info"] })
    | some (audio_path, title, thumbnail_url) =>
        if truthyOptStr audio_path = false then
          ((none, "Failed to download audio.", none), st)
        else
          ((audio_path, title, thumbnail_url),
           stWriteFile st (audio_path.getD "") (env.audioBytes (audio_path.getD "")))

/-- The tail of `transcribe_audio` once the model handle is at hand:

```
options = {}
if language:
    options['language'] = language
result = model.transcribe(audio_path, **options)
return result['text']
```

still under the surrounding `try/except` that returns the fixed failure
string. -/
def runModel (env : Env) (st : St) (m : Nat) (audio_path : String)
    (language : Option String) : String × St :=
  let options := pyLangOpt language
  let st := { st with modelTranscribeCalls := st.modelTranscribeCalls ++ [(m, audio_path, options)] }
  match env.transcribeModel m audio_path options with
  | some text => (text, st)
  | none =>
      ("An error occurred during transcription.",
       { st with printLog := st.printLog ++ ["Error during transcription"] })

/-- `transcribe_audio(audio_path, model_size, language)` from `app.py`.

```
try:
    if model_size not in models:
        models[model_size] = whisper.load_model(model_size)
    model = models[model_size]
    ... (see runModel)
except Exception as e:
    print(f"Error during transcription: {e}")
    return "An error occurred during transcription."
``` -/
def transcribe_audio (env : Env) (st : St) (audio_path : String)
    (model_size : String) (language : Option String) : String × St :=
  let st := { st with
    transcribeAudioCalls := st.transcribeAudioCalls ++ [(audio_path, model_size, language)] }
  match alookup st.models model_size with
  | some m => runModel env st m audio_path language
  | none =>
      let st := { st with loadCalls := st.loadCalls ++ [model_size] }
      match env.loadModel model_size with
      | none =>
          ("An error occurred during transcription.",
           { st with printLog := st.printLog ++ ["Error during transcription"] })
      | some m =>
          runModel env { st with models := (model_size, m) :: st.models } m audio_path language

/-- `get_video_info_and_transcribe(youtube_url, model_size, language, progress)`
from `app.py`.

```
progress(0, "Validating URL...")
audio_path, title, thumbnail_url = download_video_info(youtube_url)
if not audio_path:
    return title, None, "", None
progress(50, "Transcribing audio...")
transcription = transcribe_audio(audio_path, model_size, language)
transcription_file = "transcription.txt"
with open(transcription_file, "w", encoding="utf-8") as f:
    f.write(transcription)
if os.path.exists(audio_path):
    os.remove(audio_path)
progress(100, "Done")
return title, thumbnail_url, transcription, transcription_file
``` -/
def get_video_info_and_transcribe (env : Env) (st : St) (youtube_url : String)
    (model_size : String) (language : Option String) :
    (String × Option String × String × Option String) × St :=
  let st := { st with progressLog := st.progressLog ++ [(0, "Validating URL...")] }
  match download_video_info env st youtube_url with
  | ((audio_path, title, thumbnail_url), st) =>
    if truthyOptStr audio_path = false then
      ((title, none, "", none), st)
    else
      let ap := audio_path.getD ""
      let st := { st with progressLog := st.progressLog ++ [(50, "Transcribing audio...")] }
      match transcribe_audio env st ap model_size language with
      | (transcription, st) =>
        let st := stWriteFile st "transcription.txt" transcription
        let st := if fsExists st.fs ap then { st with fs := fsRemove st.fs ap } else st
        let st := { st with progressLog := st.progressLog ++ [(100, "Done")] }
        ((title, thumbnail_url, transcription, some "transcription.txt"), st)

/-! ## Derived descriptions used by the lemmas -/

/-- The transcription text produced by `transcribe_audio`, as a function of
the cache entry for the requested size. -/
def transcription_of (env : Env) (cached : Option Nat) (ap ms : String)
    (lang : Option String) : String :=
  match cached with
  | some m =>
      match env.transcribeModel m ap (pyLangOpt lang) with
      | some text => text
      | none => "An error occurred during transcription."
  | none =>
      match env.loadModel ms with
      | none => "An error occurred during transcription."
      | some m =>
          match env.transcribeModel m ap (pyLangOpt lang) with
          | some text => text
          | none => "An error occurred during transcription."

/-- The process state just before the transcription step on the success
path: progress was reported twice, the fetch call was logged, and the
downloaded audio file is on disk. -/
def stAfterFetch (env : Env) (st : St) (url ap : String) : St :=
  { st with progressLog := st.progressLog ++ [(0, "Validating URL..."), (50, "Transcribing audio...")],
            fetchCalls := st.fetchCalls ++ [url],
            fs := fsWrite st.fs ap (env.audioBytes ap),
            writes := st.writes ++ [(ap, env.audioBytes ap)] }

/-- A sequence of `transcribe_audio` calls, in order (the "N calls" of the
specification's cache property). -/
def runTranscribes (env : Env) (st : St)
    (calls : List (String × String × Option String)) : St :=
  calls.foldl (fun s c => (transcribe_audio env s c.1 c.2.1 c.2.2).2) st

/-- How many times `whisper.load_model` ran for size `s` so far. -/
def countLoads (st : St) (s : String) : Nat :=
  st.loadCalls.count s

/-! ## Stub collaborator behaviours for concrete runs -/

/-- A stub environment where every collaborator succeeds. -/
def envStub : Env :=
  { fetch := fun _ => some (some "audio.mp3", "Video Title", some "thumb.jpg")
    audioBytes := fun _ => "AUDIO"
    loadModel := fun _ => some 7
    transcribeModel := fun _ _ _ => some "hello world" }

/-- Like `envStub`, but the fetch reports the audio path `transcription.txt`. -/
def envAliasStub : Env :=
  { envStub with fetch := fun _ => some (some "transcription.txt", "Video Title", some "thumb.jpg") }

/-- Like `envStub`, but the fetch raises. -/
def envFetchExn : Env :=
  { envStub with fetch := fun _ => none }

/-- Like `envStub`, but the fetch returns a falsy audio path. -/
def envFetchFalsy : Env :=
  { envStub with fetch := fun _ => some (none, "Video Title", some "thumb.jpg") }

/-- Like `envStub`, but the model loader always raises. -/
def envLoadFail : Env :=
  { envStub with loadModel := fun _ => none }

/-! ## Supporting lemmas -/

theorem chop_eq_some : ∀ (p cs r : List Char), chop p cs = some r ↔ cs = p ++ r
  | [], cs, r => by simp [chop, eq_comm]
  | p :: ps, [], r => by simp [chop]
  | p :: ps, c :: cs, r => by
    simp only [chop, List.cons_append, List.cons.injEq]
    by_cases h : p = c
    · subst h
      simp [chop_eq_some ps cs r]
    · simp [h]
      intro hh
      exact absurd hh.symm h

theorem anyChop_iff (ps : List (List Char)) (k : List Char → Bool) (cs : List Char) :
    anyChop ps k cs = true ↔ ∃ p r, p ∈ ps ∧ cs = p ++ r ∧ k r = true := by
  simp only [anyChop, List.any_eq_true]
  constructor
  · rintro ⟨p, hp, hm⟩
    rcases hc : chop p cs with _ | r
    · rw [hc] at hm; exact absurd hm (by simp)
    · rw [hc] at hm
      exact ⟨p, r, hp, (chop_eq_some p cs r).1 hc, hm⟩
  · rintro ⟨p, r, hp, he, hk⟩
    exact ⟨p, hp, by rw [(chop_eq_some p cs r).2 he]; exact hk⟩

theorem dollarEnd_iff (cs : List Char) :
    dollarEnd cs = true ↔ cs = [] ∨ cs = ['\n'] := by
  match cs with
  | [] => simp [dollarEnd]
  | [c] => simp [dollarEnd]
  | c :: c' :: rest => simp [dollarEnd]

theorem dotPlusDollar_iff : ∀ cs : List Char,
    dotPlusDollar cs = true ↔
      ∃ core tl : List Char, core ≠ [] ∧ (∀ c ∈ core, c ≠ '\n') ∧
        (tl = [] ∨ tl = ['\n']) ∧ cs = core ++ tl
  | [] => by
    simp only [dotPlusDollar, Bool.false_eq_true, false_iff]
    rintro ⟨core, tl, hc, _, _, he⟩
    cases core with
    | nil => exact hc rfl
    | cons a l => simp at he
  | c :: rest => by
    simp only [dotPlusDollar, Bool.and_eq_true, Bool.or_eq_true, decide_eq_true_eq]
    constructor
    · rintro ⟨hc, hd | hr⟩
      · exact ⟨[c], rest, by simp, by simp [hc], (dollarEnd_iff rest).1 hd, by simp⟩
      · obtain ⟨core, tl, h1, h2, h3, h4⟩ := (dotPlusDollar_iff rest).1 hr
        exact ⟨c :: core, tl, by simp, by simpa [hc] using h2, h3, by simp [h4]⟩
    · rintro ⟨core, tl, h1, h2, h3, h4⟩
      cases core with
      | nil => exact absurd rfl h1
      | cons a core' =>
        simp only [List.cons_append, List.cons.injEq] at h4
        obtain ⟨rfl, h5⟩ := h4
        refine ⟨h2 c (by simp), ?_⟩
        cases core' with
        | nil =>
          left
          have hrt : rest = tl := by simpa using h5
          exact (dollarEnd_iff rest).2 (by rw [hrt]; exact h3)
        | cons b core'' =>
          right
          rw [dotPlusDollar_iff rest]
          exact ⟨b :: core'', tl, by simp, fun x hx => h2 x (by simp [hx]),
            h3, by simpa using h5⟩

theorem claimedMatch_iff (url : String) : claimedMatch url = true ↔ ClaimedShapeC2 url := by
  unfold claimedMatch ClaimedShapeC2
  rw [anyChop_iff]
  constructor
  · rintro ⟨scheme, r1, hs, he1, h1⟩
    rw [anyChop_iff] at h1
    obtain ⟨www, r2, hw, he2, h2⟩ := h1
    rw [anyChop_iff] at h2
    obtain ⟨host, r3, hh, he3, h3⟩ := h2
    rw [anyChop_iff] at h3
    obtain ⟨sl, r4, hsl, he4, h4⟩ := h3
    have hsl' : sl = ['/'] := by simpa using hsl
    subst hsl'
    refine ⟨scheme, www, host, r4, ?_, ?_, ?_, ?_, ?_⟩
    · simp only [schemeAlts, List.mem_cons, List.not_mem_nil, or_false] at hs
      tauto
    · simp only [wwwAlts, List.mem_cons, List.not_mem_nil, or_false] at hw
      tauto
    · simp only [claimedHostAlts, List.mem_cons, List.not_mem_nil, or_false] at hh
      tauto
    · intro hr
      rw [hr] at h4
      simp [List.isEmpty] at h4
    · rw [he1, he2, he3, he4]
      simp [List.append_assoc]
  · rintro ⟨scheme, www, host, rest, hs, hw, hh, hr, he⟩
    refine ⟨scheme, www ++ (host ++ '/' :: rest), ?_,
      by simpa [List.append_assoc] using he, ?_⟩
    · simp only [schemeAlts, List.mem_cons, List.not_mem_nil, or_false]
      tauto
    · rw [anyChop_iff]
      refine ⟨www, host ++ '/' :: rest, ?_, rfl, ?_⟩
      · simp only [wwwAlts, List.mem_cons, List.not_mem_nil, or_false]
        tauto
      · rw [anyChop_iff]
        refine ⟨host, '/' :: rest, ?_, rfl, ?_⟩
        · simp only [claimedHostAlts, List.mem_cons, List.not_mem_nil, or_false]
          tauto
        · rw [anyChop_iff]
          refine ⟨['/'], rest, by simp, rfl, ?_⟩
          cases rest with
          | nil => exact absurd rfl hr
          | cons a l => simp [List.isEmpty]

theorem isEmpty_false_of_ne (s : String) (h : s ≠ "") : s.isEmpty = false := by
  rw [Bool.eq_false_iff]
  intro hh
  exact h ((String.isEmpty_iff _).mp hh)

theorem find?_filter_ne (l : List (String × String)) (p q : String) (h : p ≠ q) :
    List.find? (fun e => e.1 == p) (l.filter (fun e => e.1 != q))
      = List.find? (fun e => e.1 == p) l := by
  induction l with
  | nil => rfl
  | cons e rest ih =>
    rcases e with ⟨a, b⟩
    rw [List.filter_cons]
    by_cases he : a = q
    · subst he
      have hap : (a == p) = false := by
        simp only [beq_eq_false_iff_ne]
        exact fun hh => h hh.symm
      simp [List.find?_cons, hap, ih]
    · by_cases hp : a = p
      · subst hp
        simp [List.find?_cons, he]
      · simp [List.find?_cons, he, hp, ih]

theorem fsRead?_fsWrite_self (fs : FsT) (p c : String) :
    fsRead? (fsWrite fs p c) p = some c := by
  simp [fsRead?, fsWrite, List.find?]

theorem fsRead?_fsRemove_ne (fs : FsT) (p q : String) (h : p ≠ q) :
    fsRead? (fsRemove fs q) p = fsRead? fs p := by
  simp only [fsRead?, fsRemove, find?_filter_ne fs p q h]

theorem fsRead?_fsRemove_self (fs : FsT) (p : String) :
    fsRead? (fsRemove fs p) p = none := by
  have : List.find? (fun e => e.1 == p) (fs.filter (fun e => e.1 != p)) = none := by
    rw [List.find?_eq_none]
    intro x hx
    have := (List.mem_filter.mp hx).2
    simpa using this
  simp [fsRead?, fsRemove, this]

theorem fsExists_fsWrite_self (fs : FsT) (p c : String) :
    fsExists (fsWrite fs p c) p = true := by
  simp [fsExists, fsWrite]

theorem fsExists_fsRemove_self (fs : FsT) (p : String) :
    fsExists (fsRemove fs p) p = false := by
  rw [Bool.eq_false_iff]
  intro hh
  obtain ⟨e, he, hp⟩ := List.any_eq_true.mp hh
  have := (List.mem_filter.mp he).2
  simp at hp this
  exact this hp

theorem alookup_cons_self (l : List (String × Nat)) (k : String) (v : Nat) :
    alookup ((k, v) :: l) k = some v := by
  simp [alookup]

theorem alookup_cons_ne (l : List (String × Nat)) (k k' : String) (v : Nat)
    (h : k' ≠ k) : alookup ((k', v) :: l) k = alookup l k := by
  simp [alookup, h]

theorem runModel_fst (env : Env) (st : St) (m : Nat) (ap : String)
    (lang : Option String) :
    (runModel env st m ap lang).1 =
      match env.transcribeModel m ap (pyLangOpt lang) with
      | some text => text
      | none => "An error occurred during transcription." := by
  unfold runModel
  rcases h : env.transcribeModel m ap (pyLangOpt lang) with _ | t <;> simp [h]

theorem runModel_fs (env : Env) (st : St) (m : Nat) (ap : String)
    (lang : Option String) : (runModel env st m ap lang).2.fs = st.fs := by
  unfold runModel
  rcases h : env.transcribeModel m ap (pyLangOpt lang) with _ | t <;> simp [h]

theorem runModel_models (env : Env) (st : St) (m : Nat) (ap : String)
    (lang : Option String) : (runModel env st m ap lang).2.models = st.models := by
  unfold runModel
  rcases h : env.transcribeModel m ap (pyLangOpt lang) with _ | t <;> simp [h]

theorem runModel_loadCalls (env : Env) (st : St) (m : Nat) (ap : String)
    (lang : Option String) : (runModel env st m ap lang).2.loadCalls = st.loadCalls := by
  unfold runModel
  rcases h : env.transcribeModel m ap (pyLangOpt lang) with _ | t <;> simp [h]

theorem runModel_writes (env : Env) (st : St) (m : Nat) (ap : String)
    (lang : Option String) : (runModel env st m ap lang).2.writes = st.writes := by
  unfold runModel
  rcases h : env.transcribeModel m ap (pyLangOpt lang) with _ | t <;> simp [h]

theorem runModel_printLog_fault (env : Env) (st : St) (m : Nat) (ap : String)
    (lang : Option String) (h : env.transcribeModel m ap (pyLangOpt lang) = none) :
    (runModel env st m ap lang).2.printLog
      = st.printLog ++ ["Error during transcription"] := by
  unfold runModel
  simp [h]

theorem transcribe_audio_fst (env : Env) (st : St) (ap ms : String)
    (lang : Option String) :
    (transcribe_audio env st ap ms lang).1
      = transcription_of env (alookup st.models ms) ap ms lang := by
  unfold transcribe_audio transcription_of
  rcases h1 : alookup st.models ms with _ | m
  · rcases h2 : env.loadModel ms with _ | m
    · simp [h1, h2]
    · simp [h1, h2, runModel_fst]
  · simp [h1, runModel_fst]

theorem transcribe_audio_fs (env : Env) (st : St) (ap ms : String)
    (lang : Option String) :
    (transcribe_audio env st ap ms lang).2.fs = st.fs := by
  unfold transcribe_audio
  rcases h1 : alookup st.models ms with _ | m
  · rcases h2 : env.loadModel ms with _ | m
    · simp [h1, h2]
    · simp [h1, h2, runModel_fs]
  · simp [h1, runModel_fs]

theorem transcribe_audio_models (env : Env) (st : St) (ap ms : String)
    (lang : Option String) :
    (transcribe_audio env st ap ms lang).2.models = st.models ∨
    ∃ m, alookup st.models ms = none ∧ env.loadModel ms = some m ∧
      (transcribe_audio env st ap ms lang).2.models = (ms, m) :: st.models := by
  unfold transcribe_audio
  rcases h1 : alookup st.models ms with _ | m
  · rcases h2 : env.loadModel ms with _ | m
    · left
      simp [h1, h2]
    · right
      exact ⟨m, rfl, rfl, by simp [h1, h2, runModel_models]⟩
  · left
    simp [h1, runModel_models]

theorem transcribe_audio_writes (env : Env) (st : St) (ap ms : String)
    (lang : Option String) :
    (transcribe_audio env st ap ms lang).2.writes = st.writes := by
  unfold transcribe_audio
  rcases h1 : alookup st.models ms with _ | m
  · rcases h2 : env.loadModel ms with _ | m
    · simp [h1, h2]
    · simp [h1, h2, runModel_writes]
  · simp [h1, runModel_writes]

theorem transcribe_audio_printLog_fault (env : Env) (st : St) (ap ms : String)
    (lang : Option String)
    (hfault : (alookup st.models ms = none ∧ env.loadModel ms = none) ∨
              (∀ m, env.transcribeModel m ap (pyLangOpt lang) = none)) :
    (transcribe_audio env st ap ms lang).2.printLog
      = st.printLog ++ ["Error during transcription"] := by
  unfold transcribe_audio
  rcases h1 : alookup st.models ms with _ | m
  · rcases h2 : env.loadModel ms with _ | m
    · simp [h1, h2]
    · rcases hfault with ⟨_, hl⟩ | hT
      · rw [hl] at h2
        exact absurd h2 (by simp)
      · simp [h1, h2, runModel_printLog_fault _ _ _ _ _ (hT m)]
  · rcases hfault with ⟨hc, _⟩ | hT
    · rw [hc] at h1
      exact absurd h1 (by simp)
    · simp [h1, runModel_printLog_fault _ _ _ _ _ (hT m)]

theorem dvi_invalid (env : Env) (st : St) (url : String)
    (hv : is_valid_youtube_url url = false) :
    download_video_info env st url = ((none, "Invalid YouTube URL.", none), st) := by
  unfold download_video_info
  simp [hv]

theorem dvi_exn (env : Env) (st : St) (url : String)
    (hv : is_valid_youtube_url url = true) (hf : env.fetch url = none) :
    download_video_info env st url =
      ((none, "An error occurred while downloading the video.", none),
       { st with fetchCalls := st.fetchCalls ++ [url],
                 printLog := st.printLog ++ ["Error downloading video info"] }) := by
  unfold download_video_info
  simp [hv, hf]

theorem dvi_falsy (env : Env) (st : St) (url : String)
    (a : Option String) (t : String) (th : Option String)
    (hv : is_valid_youtube_url url = true) (hf : env.fetch url = some (a, t, th))
    (ha : truthyOptStr a = false) :
    download_video_info env st url =
      ((none, "Failed to download audio.", none),
       { st with fetchCalls := st.fetchCalls ++ [url] }) := by
  unfold download_video_info
  simp [hv, hf, ha]

theorem dvi_ok (env : Env) (st : St) (url : String)
    (a : Option String) (t : String) (th : Option String)
    (hv : is_valid_youtube_url url = true) (hf : env.fetch url = some (a, t, th))
    (ha : truthyOptStr a = true) :
    download_video_info env st url =
      ((a, t, th),
       stWriteFile { st with fetchCalls := st.fetchCalls ++ [url] }
         (a.getD "") (env.audioBytes (a.getD ""))) := by
  unfold download_video_info
  simp [hv, hf, ha]

theorem run_invalid (env : Env) (st : St) (url ms : String) (lang : Option String)
    (hv : is_valid_youtube_url url = false) :
    get_video_info_and_transcribe env st url ms lang =
      (("Invalid YouTube URL.", none, "", none),
       { st with progressLog := st.progressLog ++ [(0, "Validating URL...")] }) := by
  simp only [get_video_info_and_transcribe]
  rw [dvi_invalid env _ url hv]
  simp [truthyOptStr]

theorem run_exn (env : Env) (st : St) (url ms : String) (lang : Option String)
    (hv : is_valid_youtube_url url = true) (hf : env.fetch url = none) :
    get_video_info_and_transcribe env st url ms lang =
      (("An error occurred while downloading the video.", none, "", none),
       { st with progressLog := st.progressLog ++ [(0, "Validating URL...")],
                 fetchCalls := st.fetchCalls ++ [url],
                 printLog := st.printLog ++ ["Error downloading video info"] }) := by
  simp only [get_video_info_and_transcribe]
  rw [dvi_exn env _ url hv hf]
  simp [truthyOptStr]

theorem run_falsy (env : Env) (st : St) (url ms : String) (lang : Option String)
    (a : Option String) (t : String) (th : Option String)
    (hv : is_valid_youtube_url url = true) (hf : env.fetch url = some (a, t, th))
    (ha : truthyOptStr a = false) :
    get_video_info_and_transcribe env st url ms lang =
      (("Failed to download audio.", none, "", none),
       { st with progressLog := st.progressLog ++ [(0, "Validating URL...")],
                 fetchCalls := st.fetchCalls ++ [url] }) := by
  simp only [get_video_info_and_transcribe]
  rw [dvi_falsy env _ url a t th hv hf ha]
  simp [truthyOptStr]

theorem run_ok (env : Env) (st : St) (url ms : String) (lang : Option String)
    (ap t : String) (th : Option String)
    (hv : is_valid_youtube_url url = true)
    (hf : env.fetch url = some (some ap, t, th))
    (hap : ap ≠ "") :
    get_video_info_and_transcribe env st url ms lang =
      (match transcribe_audio env (stAfterFetch env st url ap) ap ms lang with
       | (tx, st5) =>
         let st6 := stWriteFile st5 "transcription.txt" tx
         let st7 := if fsExists st6.fs ap then { st6 with fs := fsRemove st6.fs ap } else st6
         ((t, th, tx, some "transcription.txt"),
          { st7 with progressLog := st7.progressLog ++ [(100, "Done")] })) := by
  have ha : truthyOptStr (some ap) = true := by
    simp [truthyOptStr, isEmpty_false_of_ne ap hap]
  simp only [get_video_info_and_transcribe]
  rw [dvi_ok env _ url (some ap) t th hv hf ha]
  simp only [ha, Option.getD_some, Bool.true_eq_false]
  simp [stAfterFetch, stWriteFile]

theorem run_ok_flat (env : Env) (st : St) (url ms : String) (lang : Option String)
    (ap t : String) (th : Option String) (tx : String) (st5 : St)
    (hv : is_valid_youtube_url url = true)
    (hf : env.fetch url = some (some ap, t, th))
    (hap : ap ≠ "")
    (h5 : transcribe_audio env (stAfterFetch env st url ap) ap ms lang = (tx, st5)) :
    get_video_info_and_transcribe env st url ms lang =
      ((t, th, tx, some "transcription.txt"),
       { models := st5.models,
         fs := if fsExists (fsWrite st5.fs "transcription.txt" tx) ap
           then fsRemove (fsWrite st5.fs "transcription.txt" tx) ap
           else fsWrite st5.fs "transcription.txt" tx,
         fetchCalls := st5.fetchCalls,
         loadCalls := st5.loadCalls,
         transcribeAudioCalls := st5.transcribeAudioCalls,
         modelTranscribeCalls := st5.modelTranscribeCalls,
         writes := st5.writes ++ [("transcription.txt", tx)],
         printLog := st5.printLog,
         progressLog := st5.progressLog ++ [(100, "Done")] }) := by
  rw [run_ok env st url ms lang ap t th hv hf hap, h5]
  by_cases hex : fsExists (fsWrite st5.fs "transcription.txt" tx) ap = true
  · simp [stWriteFile, hex]
  · simp [stWriteFile, hex]

theorem run_ok_fst (env : Env) (st : St) (url ms : String) (lang : Option String)
    (ap t : String) (th : Option String)
    (hv : is_valid_youtube_url url = true)
    (hf : env.fetch url = some (some ap, t, th))
    (hap : ap ≠ "") :
    (get_video_info_and_transcribe env st url ms lang).1
      = (t, th, transcription_of env (alookup st.models ms) ap ms lang,
         some "transcription.txt") := by
  rcases h5 : transcribe_audio env (stAfterFetch env st url ap) ap ms lang with ⟨tx, st5⟩
  have htx : tx = transcription_of env (alookup st.models ms) ap ms lang := by
    have h := transcribe_audio_fst env (stAfterFetch env st url ap) ap ms lang
    rw [h5] at h
    simpa [stAfterFetch] using h
  rw [run_ok_flat env st url ms lang ap t th tx st5 hv hf hap h5, htx]

theorem run_ok_read (env : Env) (st : St) (url ms : String) (lang : Option String)
    (ap t : String) (th : Option String)
    (hv : is_valid_youtube_url url = true)
    (hf : env.fetch url = some (some ap, t, th))
    (hap : ap ≠ "") :
    fsRead? (get_video_info_and_transcribe env st url ms lang).2.fs
        "transcription.txt"
      = if ap = "transcription.txt" then none
        else some (transcription_of env (alookup st.models ms) ap ms lang) := by
  rcases h5 : transcribe_audio env (stAfterFetch env st url ap) ap ms lang with ⟨tx, st5⟩
  have htx : tx = transcription_of env (alookup st.models ms) ap ms lang := by
    have h := transcribe_audio_fst env (stAfterFetch env st url ap) ap ms lang
    rw [h5] at h
    simpa [stAfterFetch] using h
  rw [run_ok_flat env st url ms lang ap t th tx st5 hv hf hap h5]
  by_cases hne : ap = "transcription.txt"
  · rw [if_pos hne, hne]
    simp only [fsExists_fsWrite_self, if_true]
    exact fsRead?_fsRemove_self _ _
  · rw [if_neg hne, ← htx]
    have hne' : "transcription.txt" ≠ ap := fun hh => hne hh.symm
    by_cases hex : fsExists (fsWrite st5.fs "transcription.txt" tx) ap = true
    · simp only [hex, if_true]
      rw [fsRead?_fsRemove_ne _ _ _ hne']
      exact fsRead?_fsWrite_self _ _ _
    · simp only [hex, if_false]
      exact fsRead?_fsWrite_self _ _ _

theorem run_ok_exists (env : Env) (st : St) (url ms : String) (lang : Option String)
    (ap t : String) (th : Option String)
    (hv : is_valid_youtube_url url = true)
    (hf : env.fetch url = some (some ap, t, th))
    (hap : ap ≠ "") :
    fsExists (get_video_info_and_transcribe env st url ms lang).2.fs ap = false := by
  rcases h5 : transcribe_audio env (stAfterFetch env st url ap) ap ms lang with ⟨tx, st5⟩
  rw [run_ok_flat env st url ms lang ap t th tx st5 hv hf hap h5]
  by_cases hex : fsExists (fsWrite st5.fs "transcription.txt" tx) ap = true
  · simp only [hex, if_true]
    exact fsExists_fsRemove_self _ _
  · simp only [hex, if_false]
    exact (Bool.not_eq_true _).mp hex

theorem run_ok_models (env : Env) (st : St) (url ms : String) (lang : Option String)
    (ap t : String) (th : Option String)
    (hv : is_valid_youtube_url url = true)
    (hf : env.fetch url = some (some ap, t, th))
    (hap : ap ≠ "") :
    (get_video_info_and_transcribe env st url ms lang).2.models = st.models ∨
    ∃ m, alookup st.models ms = none ∧ env.loadModel ms = some m ∧
      (get_video_info_and_transcribe env st url ms lang).2.models
        = (ms, m) :: st.models := by
  rcases h5 : transcribe_audio env (stAfterFetch env st url ap) ap ms lang with ⟨tx, st5⟩
  have hm := transcribe_audio_models env (stAfterFetch env st url ap) ap ms lang
  rw [h5] at hm
  have hmods : (stAfterFetch env st url ap).models = st.models := by
    simp [stAfterFetch]
  rw [hmods] at hm
  rw [run_ok_flat env st url ms lang ap t th tx st5 hv hf hap h5]
  rcases hm with hm | ⟨m, h1, h2, hm⟩
  · left
    exact hm
  · right
    exact ⟨m, h1, h2, hm⟩

theorem run_ok_writes (env : Env) (st : St) (url ms : String) (lang : Option String)
    (ap t : String) (th : Option String)
    (hv : is_valid_youtube_url url = true)
    (hf : env.fetch url = some (some ap, t, th))
    (hap : ap ≠ "") :
    (get_video_info_and_transcribe env st url ms lang).2.writes
      = st.writes ++ [(ap, env.audioBytes ap),
          ("transcription.txt",
           transcription_of env (alookup st.models ms) ap ms lang)] := by
  rcases h5 : transcribe_audio env (stAfterFetch env st url ap) ap ms lang with ⟨tx, st5⟩
  have htx : tx = transcription_of env (alookup st.models ms) ap ms lang := by
    have h := transcribe_audio_fst env (stAfterFetch env st url ap) ap ms lang
    rw [h5] at h
    simpa [stAfterFetch] using h
  have hw : st5.writes = (stAfterFetch env st url ap).writes := by
    have h := transcribe_audio_writes env (stAfterFetch env st url ap) ap ms lang
    rw [h5] at h
    exact h
  rw [run_ok_flat env st url ms lang ap t th tx st5 hv hf hap h5]
  simp [hw, stAfterFetch, htx]

theorem run_ok_printLog (env : Env) (st : St) (url ms : String) (lang : Option String)
    (ap t : String) (th : Option String)
    (hv : is_valid_youtube_url url = true)
    (hf : env.fetch url = some (some ap, t, th))
    (hap : ap ≠ "")
    (hfault : (alookup st.models ms = none ∧ env.loadModel ms = none) ∨
              (∀ m, env.transcribeModel m ap (pyLangOpt lang) = none)) :
    (get_video_info_and_transcribe env st url ms lang).2.printLog
      = st.printLog ++ ["Error during transcription"] := by
  rcases h5 : transcribe_audio env (stAfterFetch env st url ap) ap ms lang with ⟨tx, st5⟩
  have hp : st5.printLog = (stAfterFetch env st url ap).printLog
      ++ ["Error during transcription"] := by
    have h := transcribe_audio_printLog_fault env (stAfterFetch env st url ap) ap ms lang
      (by simpa [stAfterFetch] using hfault)
    rw [h5] at h
    exact h
  rw [run_ok_flat env st url ms lang ap t th tx st5 hv hf hap h5]
  simp [hp, stAfterFetch]

theorem count_append_single_eq (l : List String) (s : String) :
    (l ++ [s]).count s = l.count s + 1 := by
  simp [List.count_append]

theorem count_append_single_ne (l : List String) (s x : String) (h : x ≠ s) :
    (l ++ [x]).count s = l.count s := by
  simp [List.count_append, List.count_singleton', h]

theorem transcribe_step (env : Env) (st : St) (s : String) (m : Nat)
    (hload : env.loadModel s = some m) (ap' ms' : String) (lang' : Option String) :
    (alookup (transcribe_audio env st ap' ms' lang').2.models s = alookup st.models s ∧
       countLoads (transcribe_audio env st ap' ms' lang').2 s = countLoads st s) ∨
    (alookup st.models s = none ∧
       alookup (transcribe_audio env st ap' ms' lang').2.models s = some m ∧
       countLoads (transcribe_audio env st ap' ms' lang').2 s = countLoads st s + 1) := by
  unfold transcribe_audio
  rcases h1 : alookup st.models ms' with _ | m0
  · rcases h2 : env.loadModel ms' with _ | m1
    · -- load raises: models unchanged, loadCalls gains ms'; but then ms' ≠ s
      have hms : ms' ≠ s := by
        intro hh
        rw [hh, hload] at h2
        exact absurd h2 (by simp)
      left
      simp [h1, h2, countLoads, count_append_single_ne _ _ _ hms]
    · by_cases hms : ms' = s
      · subst hms
        have hm1 : m1 = m := by
          rw [hload] at h2
          exact (Option.some_inj.mp h2).symm
        subst hm1
        right
        refine ⟨h1, ?_, ?_⟩
        · simp [h1, h2, runModel_models, alookup_cons_self]
        · simp [h1, h2, countLoads, runModel_loadCalls, count_append_single_eq]
      · left
        constructor
        · simp [h1, h2, runModel_models, alookup_cons_ne _ _ _ _ hms]
        · simp [h1, h2, countLoads, runModel_loadCalls,
            count_append_single_ne _ _ _ hms]
  · left
    simp [h1, runModel_models, runModel_loadCalls, countLoads]

theorem runTranscribes_inv (env : Env) (s : String) (m : Nat)
    (hload : env.loadModel s = some m) :
    ∀ (calls : List (String × String × Option String)) (st : St) (c0 : Nat),
      ((alookup st.models s = none ∧ countLoads st s = c0) ∨
       (alookup st.models s = some m ∧ countLoads st s ≤ c0 + 1)) →
      ((alookup (runTranscribes env st calls).models s = none ∧
          countLoads (runTranscribes env st calls) s = c0) ∨
       (alookup (runTranscribes env st calls).models s = some m ∧
          countLoads (runTranscribes env st calls) s ≤ c0 + 1)) := by
  intro calls
  induction calls with
  | nil => intro st c0 h; exact h
  | cons c rest ih =>
    intro st c0 h
    have hstep := transcribe_step env st s m hload c.1 c.2.1 c.2.2
    have : runTranscribes env st (c :: rest)
        = runTranscribes env (transcribe_audio env st c.1 c.2.1 c.2.2).2 rest := by
      simp [runTranscribes]
    rw [this]
    apply ih
    rcases hstep with ⟨ha, hc⟩ | ⟨h0, ha, hc⟩
    · rcases h with ⟨h1, h2⟩ | ⟨h1, h2⟩
      · left
        exact ⟨by rw [ha, h1], by rw [hc, h2]⟩
      · right
        exact ⟨by rw [ha, h1], by rw [hc]; exact h2⟩
    · rcases h with ⟨h1, h2⟩ | ⟨h1, h2⟩
      · right
        exact ⟨ha, by rw [hc, h2]⟩
      · rw [h1] at h0
        exact absurd h0 (by simp)

theorem transcription_of_fault (env : Env) (cached : Option Nat) (ap ms : String)
    (lang : Option String)
    (hfault : (cached = none ∧ env.loadModel ms = none) ∨
              (∀ m, env.transcribeModel m ap (pyLangOpt lang) = none)) :
    transcription_of env cached ap ms lang
      = "An error occurred during transcription." := by
  unfold transcription_of
  rcases cached with _ | m
  · rcases h2 : env.loadModel ms with _ | m1
    · simp
    · rcases hfault with ⟨_, hl⟩ | hT
      · rw [hl] at h2
        exact absurd h2 (by simp)
      · simp [hT m1]
  · rcases hfault with ⟨hc, _⟩ | hT
    · exact absurd hc (by simp)
    · simp [hT m]

/-! ## The claims -/

/-- C1 (amended): on the success path the returned tuple carries the fetched
title and thumbnail, the transcription text and the path `transcription.txt`,
and the output file holds exactly the transcription text — provided the
fetched audio path is not itself `transcription.txt` (otherwise the cleanup
step deletes the freshly written output file). -/
theorem C1_success_roundtrip (env : Env) (st : St) (url ap t tx ms : String)
    (th lang : Option String) (m : Nat)
    (hv : is_valid_youtube_url url = true)
    (hf : env.fetch url = some (some ap, t, th))
    (hap : ap ≠ "")
    (hm : alookup st.models ms = some m ∨
          (alookup st.models ms = none ∧ env.loadModel ms = some m))
    (ht : env.transcribeModel m ap (pyLangOpt lang) = some tx)
    (hne : ap ≠ "transcription.txt") :
    (get_video_info_and_transcribe env st url ms lang).1
        = (t, th, tx, some "transcription.txt") ∧
    fsRead? (get_video_info_and_transcribe env st url ms lang).2.fs
        "transcription.txt" = some tx := by
  have htx : transcription_of env (alookup st.models ms) ap ms lang = tx := by
    rcases hm with hm | ⟨hm1, hm2⟩
    · simp [transcription_of, hm, ht]
    · simp [transcription_of, hm1, hm2, ht]
  constructor
  · rw [run_ok_fst env st url ms lang ap t th hv hf hap, htx]
  · rw [run_ok_read env st url ms lang ap t th hv hf hap, if_neg hne, htx]

/-- Witness for C1: a concrete successful run through `envStub`. -/
theorem C1_success_roundtrip_witness :
    (get_video_info_and_transcribe envStub St.init
        "https://youtube.com/watch" "base" none).1
      = ("Video Title", some "thumb.jpg", "hello world", some "transcription.txt") ∧
    fsRead? (get_video_info_and_transcribe envStub St.init
        "https://youtube.com/watch" "base" none).2.fs "transcription.txt"
      = some "hello world" :=
  C1_success_roundtrip envStub St.init "https://youtube.com/watch" "audio.mp3"
    "Video Title" "hello world" "base" (some "thumb.jpg") none 7
    (by decide) rfl (by decide) (Or.inr ⟨rfl, rfl⟩) rfl (by decide)

/-- Counterexample to C1 as stated: with a successful Fetcher whose
(non-empty) audio path is `transcription.txt` and a successful Transcriber,
the run returns the expected tuple — but the output file does not contain
the transcription text: the cleanup step deleted it, so it does not exist. -/
theorem C1_counterexample :
    (get_video_info_and_transcribe envAliasStub St.init
        "https://youtube.com/watch" "base" none).1
      = ("Video Title", some "thumb.jpg", "hello world", some "transcription.txt") ∧
    fsRead? (get_video_info_and_transcribe envAliasStub St.init
        "https://youtube.com/watch" "base" none).2.fs "transcription.txt"
      = none := by
  constructor
  · rfl
  · rfl

/-- C2 (amended): `is_valid_youtube_url url = true` exactly when `url` has
an optional `http://` or `https://` scheme, an optional `www.`, a host that
is `youtube.com`, `youtu.be` or `youtube` (the bare `youtube` host is
accepted because the dot in `youtu\.?be` is optional), then `/` and a
remainder of at least one non-newline character, optionally followed by one
final newline (Python `$` semantics). -/
theorem C2_amended (url : String) :
    is_valid_youtube_url url = true ↔
      ∃ scheme www host core tl : List Char,
        (scheme = [] ∨ scheme = "http://".data ∨ scheme = "https://".data) ∧
        (www = [] ∨ www = "www.".data) ∧
        (host = "youtube.com".data ∨ host = "youtu.be".data ∨ host = "youtube".data) ∧
        core ≠ [] ∧ (∀ c ∈ core, c ≠ '\n') ∧ (tl = [] ∨ tl = ['\n']) ∧
        url.data = scheme ++ www ++ host ++ '/' :: (core ++ tl) := by
  unfold is_valid_youtube_url
  rw [anyChop_iff]
  constructor
  · rintro ⟨scheme, r1, hs, he1, h1⟩
    rw [anyChop_iff] at h1
    obtain ⟨www, r2, hw, he2, h2⟩ := h1
    rw [anyChop_iff] at h2
    obtain ⟨host, r3, hh, he3, h3⟩ := h2
    rw [anyChop_iff] at h3
    obtain ⟨sl, r4, hsl, he4, h4⟩ := h3
    have hsl' : sl = ['/'] := by simpa using hsl
    subst hsl'
    obtain ⟨core, tl, hc1, hc2, hc3, hc4⟩ := (dotPlusDollar_iff r4).1 h4
    refine ⟨scheme, www, host, core, tl, ?_, ?_, ?_, hc1, hc2, hc3, ?_⟩
    · simp only [schemeAlts, List.mem_cons, List.not_mem_nil, or_false] at hs
      tauto
    · simp only [wwwAlts, List.mem_cons, List.not_mem_nil, or_false] at hw
      tauto
    · simp only [hostAlts, List.mem_cons, List.not_mem_nil, or_false] at hh
      tauto
    · rw [he1, he2, he3, he4, hc4]
      simp [List.append_assoc]
  · rintro ⟨scheme, www, host, core, tl, hs, hw, hh, hc1, hc2, hc3, he⟩
    refine ⟨scheme, www ++ (host ++ '/' :: (core ++ tl)), ?_,
      by simpa [List.append_assoc] using he, ?_⟩
    · simp only [schemeAlts, List.mem_cons, List.not_mem_nil, or_false]
      tauto
    · rw [anyChop_iff]
      refine ⟨www, host ++ '/' :: (core ++ tl), ?_, rfl, ?_⟩
      · simp only [wwwAlts, List.mem_cons, List.not_mem_nil, or_false]
        tauto
      · rw [anyChop_iff]
        refine ⟨host, '/' :: (core ++ tl), ?_, rfl, ?_⟩
        · simp only [hostAlts, List.mem_cons, List.not_mem_nil, or_false]
          tauto
        · rw [anyChop_iff]
          refine ⟨['/'], core ++ tl, by simp, rfl, ?_⟩
          exact (dotPlusDollar_iff _).2 ⟨core, tl, hc1, hc2, hc3, rfl⟩

/-- Counterexample to C2 as stated: `"youtube/x"` is accepted by the code,
yet its host is neither `youtube.com` nor `youtu.be`, so it does not have
the claimed shape. -/
theorem C2_counterexample :
    is_valid_youtube_url "youtube/x" = true ∧ ¬ ClaimedShapeC2 "youtube/x" := by
  constructor
  · decide
  · intro h
    exact absurd ((claimedMatch_iff "youtube/x").2 h) (by decide)

/-- C3 (amended): fetch faults are caught, logged, and surfaced as a short
message in the title field; model-load/transcription faults are caught,
logged, and surfaced as the fixed failure string in the transcription field
(not the title field, which keeps the fetched video title). -/
theorem C3_fault_handling (env : Env) (st : St) (url ms : String)
    (lang : Option String) :
    (is_valid_youtube_url url = true → env.fetch url = none →
      (get_video_info_and_transcribe env st url ms lang).1
          = ("An error occurred while downloading the video.", none, "", none) ∧
      (get_video_info_and_transcribe env st url ms lang).2.printLog
          = st.printLog ++ ["Error downloading video info"]) ∧
    (∀ ap t th, is_valid_youtube_url url = true →
      env.fetch url = some (some ap, t, th) → ap ≠ "" →
      ((alookup st.models ms = none ∧ env.loadModel ms = none) ∨
       (∀ m, env.transcribeModel m ap (pyLangOpt lang) = none)) →
      (get_video_info_and_transcribe env st url ms lang).1
          = (t, th, "An error occurred during transcription.",
             some "transcription.txt") ∧
      (get_video_info_and_transcribe env st url ms lang).2.printLog
          = st.printLog ++ ["Error during transcription"]) := by
  constructor
  · intro hv hf
    rw [run_exn env st url ms lang hv hf]
    exact ⟨rfl, rfl⟩
  · intro ap t th hv hf hap hfault
    have htx := transcription_of_fault env (alookup st.models ms) ap ms lang hfault
    constructor
    · rw [run_ok_fst env st url ms lang ap t th hv hf hap, htx]
    · exact run_ok_printLog env st url ms lang ap t th hv hf hap hfault

/-- Witness for C3: a concrete run whose fetch raises. -/
theorem C3_fault_handling_witness :
    (get_video_info_and_transcribe envFetchExn St.init
        "https://youtube.com/watch" "base" none).1
      = ("An error occurred while downloading the video.", none, "", none) ∧
    (get_video_info_and_transcribe envFetchExn St.init
        "https://youtube.com/watch" "base" none).2.printLog
      = St.init.printLog ++ ["Error downloading video info"] :=
  (C3_fault_handling envFetchExn St.init "https://youtube.com/watch" "base" none).1
    (by decide) rfl

/-- Counterexample to C3 as stated: when the model loader raises, no error
string is substituted into the title field — the title field keeps the
fetched video title and the failure string appears in the transcription
field instead. -/
theorem C3_counterexample :
    (get_video_info_and_transcribe envLoadFail St.init
        "https://youtube.com/watch" "base" none).1
      = ("Video Title", some "thumb.jpg",
         "An error occurred during transcription.", some "transcription.txt") := by
  rfl

/-- C4: an invalid URL yields the error title with empty outputs, and no
collaborator is invoked. -/
theorem C4_invalid_url (env : Env) (st : St) (url ms : String)
    (lang : Option String)
    (hv : is_valid_youtube_url url = false) :
    (get_video_info_and_transcribe env st url ms lang).1
        = ("Invalid YouTube URL.", none, "", none) ∧
    (get_video_info_and_transcribe env st url ms lang).2.fetchCalls
        = st.fetchCalls ∧
    (get_video_info_and_transcribe env st url ms lang).2.transcribeAudioCalls
        = st.transcribeAudioCalls ∧
    (get_video_info_and_transcribe env st url ms lang).2.loadCalls
        = st.loadCalls ∧
    (get_video_info_and_transcribe env st url ms lang).2.modelTranscribeCalls
        = st.modelTranscribeCalls := by
  rw [run_invalid env st url ms lang hv]
  exact ⟨rfl, rfl, rfl, rfl, rfl⟩

/-- Witness for C4: a concrete run with an invalid URL. -/
theorem C4_invalid_url_witness :
    (get_video_info_and_transcribe envStub St.init
        "https://example.com/x" "base" none).1
      = ("Invalid YouTube URL.", none, "", none) ∧
    (get_video_info_and_transcribe envStub St.init
        "https://example.com/x" "base" none).2.fetchCalls = St.init.fetchCalls ∧
    (get_video_info_and_transcribe envStub St.init
        "https://example.com/x" "base" none).2.transcribeAudioCalls
      = St.init.transcribeAudioCalls ∧
    (get_video_info_and_transcribe envStub St.init
        "https://example.com/x" "base" none).2.loadCalls = St.init.loadCalls ∧
    (get_video_info_and_transcribe envStub St.init
        "https://example.com/x" "base" none).2.modelTranscribeCalls
      = St.init.modelTranscribeCalls :=
  C4_invalid_url envStub St.init "https://example.com/x" "base" none (by decide)

/-- C5: a valid URL whose fetch fails (raises, or returns a falsy audio
path) yields a failure-specific title with empty outputs, and the
transcriber is never invoked. -/
theorem C5_fetch_failure (env : Env) (st : St) (url ms : String)
    (lang : Option String)
    (hv : is_valid_youtube_url url = true)
    (hfail : env.fetch url = none ∨
      ∃ a t th, env.fetch url = some (a, t, th) ∧ truthyOptStr a = false) :
    (∃ msg, (get_video_info_and_transcribe env st url ms lang).1
        = (msg, none, "", none) ∧
      ((env.fetch url = none ∧
          msg = "An error occurred while downloading the video.") ∨
       (env.fetch url ≠ none ∧ msg = "Failed to download audio."))) ∧
    (get_video_info_and_transcribe env st url ms lang).2.transcribeAudioCalls
        = st.transcribeAudioCalls ∧
    (get_video_info_and_transcribe env st url ms lang).2.loadCalls
        = st.loadCalls ∧
    (get_video_info_and_transcribe env st url ms lang).2.modelTranscribeCalls
        = st.modelTranscribeCalls := by
  rcases hfail with hf | ⟨a, t, th, hf, ha⟩
  · rw [run_exn env st url ms lang hv hf]
    exact ⟨⟨_, rfl, Or.inl ⟨hf, rfl⟩⟩, rfl, rfl, rfl⟩
  · rw [run_falsy env st url ms lang a t th hv hf ha]
    exact ⟨⟨_, rfl, Or.inr ⟨by simp [hf], rfl⟩⟩, rfl, rfl, rfl⟩

/-- Witness for C5: a concrete run whose fetch returns a falsy audio path. -/
theorem C5_fetch_failure_witness :
    (∃ msg, (get_video_info_and_transcribe envFetchFalsy St.init
        "https://youtube.com/watch" "base" none).1 = (msg, none, "", none) ∧
      ((envFetchFalsy.fetch "https://youtube.com/watch" = none ∧
          msg = "An error occurred while downloading the video.") ∨
       (envFetchFalsy.fetch "https://youtube.com/watch" ≠ none ∧
          msg = "Failed to download audio."))) ∧
    (get_video_info_and_transcribe envFetchFalsy St.init
        "https://youtube.com/watch" "base" none).2.transcribeAudioCalls
      = St.init.transcribeAudioCalls ∧
    (get_video_info_and_transcribe envFetchFalsy St.init
        "https://youtube.com/watch" "base" none).2.loadCalls = St.init.loadCalls ∧
    (get_video_info_and_transcribe envFetchFalsy St.init
        "https://youtube.com/watch" "base" none).2.modelTranscribeCalls
      = St.init.modelTranscribeCalls :=
  C5_fetch_failure envFetchFalsy St.init "https://youtube.com/watch" "base" none
    (by decide) (Or.inr ⟨none, "Video Title", some "thumb.jpg", rfl, rfl⟩)

/-- C6 (amended): when loading the model size succeeds, the loader runs at
most once for that size across any sequence of `transcribe_audio` calls in a
fresh-cache process, and the cache only ever holds the loaded instance (it
is never cleared).  (A raising loader is retried on every call with that
size; see the counterexample.) -/
theorem C6_cache_loads_once (env : Env) (st : St) (s : String) (m : Nat)
    (calls : List (String × String × Option String))
    (hload : env.loadModel s = some m)
    (h0 : alookup st.models s = none)
    (hc : countLoads st s = 0) :
    countLoads (runTranscribes env st calls) s ≤ 1 ∧
    (alookup (runTranscribes env st calls).models s = none ∨
     alookup (runTranscribes env st calls).models s = some m) := by
  have h := runTranscribes_inv env s m hload calls st 0 (Or.inl ⟨h0, hc⟩)
  rcases h with ⟨ha, hcnt⟩ | ⟨ha, hcnt⟩
  · exact ⟨by omega, Or.inl ha⟩
  · exact ⟨by omega, Or.inr ha⟩

/-- Witness for C6: three calls with size `base` against a succeeding
loader leave at most one load. -/
theorem C6_cache_loads_once_witness :
    countLoads (runTranscribes envStub St.init
      [("a.mp3", "base", none), ("b.mp3", "base", none),
       ("c.mp3", "base", none)]) "base" ≤ 1 ∧
    (alookup (runTranscribes envStub St.init
      [("a.mp3", "base", none), ("b.mp3", "base", none),
       ("c.mp3", "base", none)]).models "base" = none ∨
     alookup (runTranscribes envStub St.init
      [("a.mp3", "base", none), ("b.mp3", "base", none),
       ("c.mp3", "base", none)]).models "base" = some 7) :=
  C6_cache_loads_once envStub St.init "base" 7
    [("a.mp3", "base", none), ("b.mp3", "base", none), ("c.mp3", "base", none)]
    rfl rfl rfl

/-- Counterexample to C6 as stated: with a loader that raises, two calls
with size `base` invoke the loader twice — nothing was inserted into the
cache by the first call, so the load is retried. -/
theorem C6_counterexample :
    countLoads (runTranscribes envLoadFail St.init
      [("a.mp3", "base", none), ("a.mp3", "base", none)]) "base" = 2 := by
  decide

/-- C7: after a run in which the fetch produced a (truthy) audio path, that
audio file no longer exists on disk. -/
theorem C7_audio_cleanup (env : Env) (st : St) (url ms : String)
    (lang : Option String) (ap t : String) (th : Option String)
    (hv : is_valid_youtube_url url = true)
    (hf : env.fetch url = some (some ap, t, th))
    (hap : ap ≠ "") :
    fsExists (get_video_info_and_transcribe env st url ms lang).2.fs ap
      = false :=
  run_ok_exists env st url ms lang ap t th hv hf hap

/-- Witness for C7: after a concrete successful run, `audio.mp3` is gone. -/
theorem C7_audio_cleanup_witness :
    fsExists (get_video_info_and_transcribe envStub St.init
        "https://youtube.com/watch" "base" none).2.fs "audio.mp3" = false :=
  C7_audio_cleanup envStub St.init "https://youtube.com/watch" "base" none
    "audio.mp3" "Video Title" (some "thumb.jpg") (by decide) rfl (by decide)

/-- C8: running the pipeline twice with the same inputs and the same
deterministic collaborators leaves `transcription.txt` with the same content
after the second run as after the first. -/
theorem C8_idempotent_file (env : Env) (st : St) (url ms : String)
    (lang : Option String) :
    fsRead? (get_video_info_and_transcribe env
        (get_video_info_and_transcribe env st url ms lang).2 url ms lang).2.fs
        "transcription.txt"
      = fsRead? (get_video_info_and_transcribe env st url ms lang).2.fs
          "transcription.txt" := by
  by_cases hv : is_valid_youtube_url url = true
  · rcases hfetch : env.fetch url with _ | trip
    · rw [run_exn env st url ms lang hv hfetch,
        run_exn env _ url ms lang hv hfetch]
    · rcases trip with ⟨a, t, th⟩
      rcases ha : truthyOptStr a with _ | _
      · rw [run_falsy env st url ms lang a t th hv hfetch ha,
          run_falsy env _ url ms lang a t th hv hfetch ha]
      · rcases a with _ | ap
        · simp [truthyOptStr] at ha
        · have hap : ap ≠ "" := by
            intro hh
            rw [hh] at ha
            simp [truthyOptStr, String.isEmpty] at ha
          rw [run_ok_read env st url ms lang ap t th hv hfetch hap,
            run_ok_read env _ url ms lang ap t th hv hfetch hap]
          by_cases hne : ap = "transcription.txt"
          · rw [if_pos hne, if_pos hne]
          · rw [if_neg hne, if_neg hne]
            have hms := run_ok_models env st url ms lang ap t th hv hfetch hap
            rcases hms with hm | ⟨m, h1, h2, hm⟩
            · rw [hm]
            · rw [hm, alookup_cons_self, h1]
              unfold transcription_of
              simp [h2]
  · have hv' : is_valid_youtube_url url = false := (Bool.not_eq_true _).mp hv
    rw [run_invalid env st url ms lang hv', run_invalid env _ url ms lang hv']

/-- C9 (amended): whenever a `transcribe_audio` call reaches the model, the
options of the `model.transcribe` invocation carry a language entry exactly
when the supplied language is non-`None` and non-empty (Python truthiness);
`None` and `""` both leave the options without a language key. -/
theorem C9_language_hint (env : Env) (st : St) (ap ms : String)
    (lang : Option String) :
    ((transcribe_audio env st ap ms lang).2.modelTranscribeCalls
        = st.modelTranscribeCalls ∨
     (∃ m, (transcribe_audio env st ap ms lang).2.modelTranscribeCalls
        = st.modelTranscribeCalls ++ [(m, ap, pyLangOpt lang)])) ∧
    (∀ l : String, pyLangOpt lang = some l ↔ (lang = some l ∧ l ≠ "")) := by
  constructor
  · unfold transcribe_audio runModel
    rcases h1 : alookup st.models ms with _ | m0
    · rcases h2 : env.loadModel ms with _ | m1
      · left
        simp [h1, h2]
      · right
        refine ⟨m1, ?_⟩
        rcases h3 : env.transcribeModel m1 ap (pyLangOpt lang) with _ | t <;>
          simp [h1, h2, h3]
    · right
      refine ⟨m0, ?_⟩
      rcases h3 : env.transcribeModel m0 ap (pyLangOpt lang) with _ | t <;>
        simp [h1, h3]
  · intro l
    rcases lang with _ | l'
    · simp [pyLangOpt]
    · unfold pyLangOpt
      by_cases he : l'.isEmpty = true
      · have hl' : l' = "" := (String.isEmpty_iff _).mp he
        subst hl'
        simp only [he, if_true]
        constructor
        · intro h
          exact absurd h (by simp)
        · rintro ⟨hl, hne⟩
          exact absurd (Option.some_inj.mp hl).symm hne
      · have he' : l'.isEmpty = false := (Bool.not_eq_true _).mp he
        have hne' : l' ≠ "" := by
          intro hh
          rw [hh] at he'
          simp [String.isEmpty] at he'
        simp only [he', Bool.false_eq_true, if_false]
        constructor
        · intro h
          obtain rfl : l' = l := Option.some_inj.mp h
          exact ⟨rfl, hne'⟩
        · exact fun h => h.1

/-- Counterexample to C9 as stated: the language `some ""` is supplied, yet
the options of the `model.transcribe` invocation carry no language entry
(Python truthiness treats the empty string as absent). -/
theorem C9_counterexample :
    (transcribe_audio envStub St.init "audio.mp3" "base" (some "")).2.modelTranscribeCalls
      = [(7, "audio.mp3", none)] := by
  decide

/-- C10: when the fetch succeeds but the transcriber faults (model load or
transcription raises), the run still completes the whole success path: the
fixed failure string is written to `transcription.txt`, the audio file is
deleted, and the returned tuple carries the real title and thumbnail with
the failure string in the transcription field. -/
theorem C10_transcriber_fault_path (env : Env) (st : St) (url ms ap t : String)
    (th lang : Option String)
    (hv : is_valid_youtube_url url = true)
    (hf : env.fetch url = some (some ap, t, th))
    (hap : ap ≠ "")
    (hfault : (alookup st.models ms = none ∧ env.loadModel ms = none) ∨
              (∀ m, env.transcribeModel m ap (pyLangOpt lang) = none)) :
    (get_video_info_and_transcribe env st url ms lang).1
        = (t, th, "An error occurred during transcription.",
           some "transcription.txt") ∧
    ("transcription.txt", "An error occurred during transcription.")
        ∈ (get_video_info_and_transcribe env st url ms lang).2.writes ∧
    fsExists (get_video_info_and_transcribe env st url ms lang).2.fs ap
        = false := by
  have htx := transcription_of_fault env (alookup st.models ms) ap ms lang hfault
  refine ⟨?_, ?_, ?_⟩
  · rw [run_ok_fst env st url ms lang ap t th hv hf hap, htx]
  · rw [run_ok_writes env st url ms lang ap t th hv hf hap, htx]
    simp
  · exact run_ok_exists env st url ms lang ap t th hv hf hap

/-- Witness for C10: a concrete run whose model loader raises. -/
theorem C10_transcriber_fault_path_witness :
    (get_video_info_and_transcribe envLoadFail St.init
        "https://youtube.com/watch" "base" none).1
      = ("Video Title", some "thumb.jpg",
         "An error occurred during transcription.", some "transcription.txt") ∧
    ("transcription.txt", "An error occurred during transcription.")
        ∈ (get_video_info_and_transcribe envLoadFail St.init
            "https://youtube.com/watch" "base" none).2.writes ∧
    fsExists (get_video_info_and_transcribe envLoadFail St.init
        "https://youtube.com/watch" "base" none).2.fs "audio.mp3" = false :=
  C10_transcriber_fault_path envLoadFail St.init "https://youtube.com/watch"
    "base" "audio.mp3" "Video Title" (some "thumb.jpg") none
    (by decide) rfl (by decide) (Or.inl ⟨rfl, rfl⟩)
